import Mathlib

/-!
Shallow embedding of `payroll_sheet/school_payroll/doctype/monthly_payroll/monthly_payroll.py`.

Python floats are modelled as exact rationals (`ℚ`); Python `int` counters as
`ℕ`/`ℤ`.  Every definition mirrors the corresponding Python function; loops with
a `range(n)` bound become structural recursion on a fuel argument `n`, and the
single unbounded `while` loop (the whole-unit increment loop of
`rwanda_gross_for_take_home`) is given an explicitly computed fuel that is
proved sufficient, so the embedding stays executable.
-/

/-- Result record of `_calc_all` (the Python dict with nine keys). -/
structure DeductionResult where
  paye : ℚ
  rssb_employer : ℚ
  rssb_employee : ℚ
  maternity_employer : ℚ
  maternity_employee : ℚ
  net_salary : ℚ
  cbhi : ℚ
  take_home_2 : ℚ
  gross_pay : ℚ
  deriving DecidableEq, Repr

/-- `_paye_rwanda`: Rwanda monthly PAYE brackets (the Python if-chain). -/
def _paye_rwanda (gross : ℚ) : ℚ :=
  if gross ≤ 60000 then 0
  else if gross ≤ 100000 then 0.10 * (gross - 60000)
  else if gross ≤ 200000 then 4000 + 0.20 * (gross - 100000)
  else 24000 + 0.30 * (gross - 200000)

/-- `_calc_all`: all deduction amounts for a gross pay.  The Python
`float(gross or 0)` coercion is the identity on an exact rational input. -/
def _calc_all (gross : ℚ) (apply_tax : Bool := true) : DeductionResult :=
  let g := gross
  let paye := if apply_tax then _paye_rwanda g else 0
  let rssb_empr := 0.08 * g
  let rssb_empl := 0.06 * g
  let mat_empr := 0.006 * g
  let mat_empl := 0.003 * g
  let net_salary := g - (paye + rssb_empr + rssb_empl + mat_empr + mat_empl)
  let cbhi := 0.005 * net_salary
  let take_home_2 := net_salary - cbhi
  { paye := paye
    rssb_employer := rssb_empr
    rssb_employee := rssb_empl
    maternity_employer := mat_empr
    maternity_employee := mat_empl
    net_salary := net_salary
    cbhi := cbhi
    take_home_2 := take_home_2
    gross_pay := g }

example : (_calc_all 50000 true).rssb_employer = 4000 := by norm_num [_calc_all]
example : (_calc_all 50000 true).net_salary = 42550 := by
  norm_num [_calc_all, _paye_rwanda]
example : (_calc_all 150000 true).paye = 14000 := by norm_num [_calc_all, _paye_rwanda]
example : (_calc_all 150000 true).net_salary = 113650 := by
  norm_num [_calc_all, _paye_rwanda]

/-- Python `round(x, 0)`: round half to even (banker rounding). -/
def pyRound (x : ℚ) : ℚ :=
  let f : ℤ := ⌊x⌋
  let r : ℚ := x - f
  if r < 1/2 then f
  else if 1/2 < r then f + 1
  else if 2 ∣ f then f else f + 1

/-- The final rounding loop of `rwanda_gross_for_take_home`: round the eight
monetary fields (`gross_pay` is handled separately in both branches). -/
def round_fields (v : DeductionResult) : DeductionResult :=
  { paye := pyRound v.paye
    rssb_employer := pyRound v.rssb_employer
    rssb_employee := pyRound v.rssb_employee
    maternity_employer := pyRound v.maternity_employer
    maternity_employee := pyRound v.maternity_employee
    net_salary := pyRound v.net_salary
    cbhi := pyRound v.cbhi
    take_home_2 := pyRound v.take_home_2
    gross_pay := v.gross_pay }

/-- The doubling phase `for _ in range(30): if th2(hi) >= T: break; hi *= 2.0`,
with the range bound as fuel. -/
def doubling (T : ℚ) (apply_tax : Bool) : ℕ → ℚ → ℚ
  | 0, hi => hi
  | n + 1, hi =>
    if T ≤ (_calc_all hi apply_tax).take_home_2 then hi
    else doubling T apply_tax n (hi * 2)

/-- The bisection phase (`for _ in range(max_iter)`), returning the final `hi`;
the early exit `hi = mid; break` returns `mid`. -/
def bisect (T : ℚ) (apply_tax : Bool) (tolerance : ℚ) : ℕ → ℚ → ℚ → ℚ
  | 0, _, hi => hi
  | n + 1, lo, hi =>
    let mid := (lo + hi) / 2
    let th2 := (_calc_all mid apply_tax).take_home_2
    if |th2 - T| ≤ tolerance then mid
    else if th2 < T then bisect T apply_tax tolerance n mid hi
    else bisect T apply_tax tolerance n lo mid

/-- Fuelled version of the unbounded increment loop
`while vals["take_home_2"] < T: g += 1`. -/
def incLoopAux (T : ℚ) (apply_tax : Bool) : ℕ → ℤ → ℤ
  | 0, g => g
  | n + 1, g =>
    if (_calc_all (g : ℚ) apply_tax).take_home_2 < T then incLoopAux T apply_tax n (g + 1)
    else g

/-- A whole-unit gross at which `take_home_2` provably reaches any target `T`:
`take_home_2 g ≥ 0.548245 · g` for `g ≥ 0` (PAYE never exceeds 30% of a
non-negative gross). -/
def incBound (T : ℚ) : ℤ := max 1 ⌈T * 1000000 / 548245⌉

/-- The increment loop of `rwanda_gross_for_take_home`, run with provably
sufficient fuel (`incLoopAux_post` and `incLoopF_incLoop` below show the fuel is never
exhausted, so this equals the Python unbounded `while` loop). -/
def incLoop (T : ℚ) (apply_tax : Bool) (g : ℤ) : ℤ :=
  incLoopAux T apply_tax ((incBound T - g).toNat + 1) g

/-- `rwanda_gross_for_take_home`: find a gross whose `take_home_2` meets the
target take-home, by bracketing, bisection, and a final ceil-and-increment
step, then round the outputs. -/
def rwanda_gross_for_take_home (take_home : ℚ) (apply_tax : Bool := true)
    (tolerance : ℚ := 1) (max_iter : ℕ := 60) : DeductionResult :=
  let T := take_home
  if T ≤ 0 then
    { round_fields (_calc_all 0 apply_tax) with gross_pay := 0 }
  else
    let hi0 : ℚ := max (T / 0.55) 200000
    let hi1 := doubling T apply_tax 30 hi0
    let hi2 := bisect T apply_tax tolerance max_iter 0 hi1
    let g : ℤ := ⌈hi2⌉
    let gf := incLoop T apply_tax g
    let vals := _calc_all (gf : ℚ) apply_tax
    { round_fields vals with gross_pay := (gf : ℚ) }

/-- Fuelled `Option`-valued version of the increment loop, used to state that
the unbounded Python `while` loop terminates: `none` means fuel ran out. -/
def incLoopF (T : ℚ) (apply_tax : Bool) : ℕ → ℤ → Option ℤ
  | 0, _ => none
  | n + 1, g =>
    if (_calc_all (g : ℚ) apply_tax).take_home_2 < T then incLoopF T apply_tax n (g + 1)
    else some g

/-- `rwanda_gross_for_take_home` with the increment loop run on explicit fuel;
`some` exactly when the fuel was not exhausted. -/
def rwanda_gross_for_take_home_fuelled (fuel : ℕ) (take_home : ℚ) (apply_tax : Bool)
    (tolerance : ℚ) (max_iter : ℕ) : Option DeductionResult :=
  let T := take_home
  if T ≤ 0 then
    some { round_fields (_calc_all 0 apply_tax) with gross_pay := 0 }
  else
    let hi0 : ℚ := max (T / 0.55) 200000
    let hi1 := doubling T apply_tax 30 hi0
    let hi2 := bisect T apply_tax tolerance max_iter 0 hi1
    let g : ℤ := ⌈hi2⌉
    (incLoopF T apply_tax fuel g).map fun gf =>
      { round_fields (_calc_all (gf : ℚ) apply_tax) with gross_pay := (gf : ℚ) }

theorem doubling_succ (T : ℚ) (tax : Bool) (n : ℕ) (hi : ℚ) :
    doubling T tax (n + 1) hi =
      if T ≤ (_calc_all hi tax).take_home_2 then hi else doubling T tax n (hi * 2) := rfl

theorem bisect_succ (T : ℚ) (tax : Bool) (tol : ℚ) (n : ℕ) (lo hi : ℚ) :
    bisect T tax tol (n + 1) lo hi =
      if |(_calc_all ((lo + hi) / 2) tax).take_home_2 - T| ≤ tol then (lo + hi) / 2
      else if (_calc_all ((lo + hi) / 2) tax).take_home_2 < T then
        bisect T tax tol n ((lo + hi) / 2) hi
      else bisect T tax tol n lo ((lo + hi) / 2) := rfl

theorem incLoopAux_succ (T : ℚ) (tax : Bool) (n : ℕ) (g : ℤ) :
    incLoopAux T tax (n + 1) g =
      if (_calc_all (g : ℚ) tax).take_home_2 < T then incLoopAux T tax n (g + 1) else g := rfl

/-- Child-table row of a Monthly Payroll: the input fields (`take_home` is the
target take-home, `apply_tax`, `employee_type`) and the nine computed fields. -/
structure PayrollRow where
  employee : String
  employee_type : String
  take_home : ℚ
  apply_tax : Bool
  gross_pay : ℚ
  paye : ℚ
  rssb_employer : ℚ
  rssb_employee : ℚ
  maternity_employer : ℚ
  maternity_employee : ℚ
  net_salary : ℚ
  cbhi : ℚ
  take_home_2 : ℚ
  deriving DecidableEq, Repr

/-- `MonthlyPayroll.calculate_row`: the three-branch per-row state machine
(no target / tax exempt / solve), as a pure row transformer. -/
def calculate_row (row : PayrollRow) : PayrollRow :=
  let target_th := row.take_home
  if target_th ≤ 0 then
    { row with
      gross_pay := 0, paye := 0, rssb_employer := 0, rssb_employee := 0,
      maternity_employer := 0, maternity_employee := 0, net_salary := 0,
      cbhi := 0, take_home_2 := 0 }
  else if row.apply_tax = false then
    { row with
      gross_pay := target_th, net_salary := target_th, take_home_2 := target_th,
      paye := 0, rssb_employer := 0, rssb_employee := 0,
      maternity_employer := 0, maternity_employee := 0, cbhi := 0 }
  else
    let vals := rwanda_gross_for_take_home target_th true 1 60
    { row with
      gross_pay := vals.gross_pay, paye := vals.paye,
      rssb_employer := vals.rssb_employer, rssb_employee := vals.rssb_employee,
      maternity_employer := vals.maternity_employer,
      maternity_employee := vals.maternity_employee,
      net_salary := vals.net_salary, cbhi := vals.cbhi,
      take_home_2 := vals.take_home_2 }

/-- One record of the `summary_by_type` child table. -/
structure CatData where
  employee_type : String
  employee_count : ℕ
  advance_pay : ℚ
  net_salary : ℚ
  net_minus_advance : ℚ
  cost_to_company : ℚ
  deriving DecidableEq, Repr

/-- The zero-initialised summary record for one employee type. -/
def initCat (t : String) : CatData :=
  { employee_type := t, employee_count := 0, advance_pay := 0, net_salary := 0,
    net_minus_advance := 0, cost_to_company := 0 }

/-- One aggregation step of `calculate_summary` for a row of a matching type. -/
def addRowToCat (d : CatData) (r : PayrollRow) : CatData :=
  { d with
    employee_count := d.employee_count + 1,
    advance_pay := d.advance_pay + r.take_home,
    net_salary := d.net_salary + r.net_salary,
    cost_to_company := d.cost_to_company
      + (r.gross_pay + r.rssb_employer + r.maternity_employer) }

/-- The body of the aggregation loop: dispatch a row to the summary record of
its `employee_type`, or drop it when the type is not one of the three fixed
categories (`if t in summary`). -/
def sumStep (s : CatData × CatData × CatData) (r : PayrollRow) :
    CatData × CatData × CatData :=
  if r.employee_type = "Academic" then (addRowToCat s.1 r, s.2.1, s.2.2)
  else if r.employee_type = "Administrative" then (s.1, addRowToCat s.2.1 r, s.2.2)
  else if r.employee_type = "Support" then (s.1, s.2.1, addRowToCat s.2.2 r)
  else s

/-- `data["net_minus_advance"] = data["net_salary"] - data["advance_pay"]`. -/
def finalizeCat (d : CatData) : CatData :=
  { d with net_minus_advance := d.net_salary - d.advance_pay }

/-- The synthetic "Total" record: field-wise sum of the three finalized
category records (including their `net_minus_advance` values), after which
`net_minus_advance` is overwritten with `net_salary - advance_pay`. -/
def totalCat (a b c : CatData) : CatData :=
  let t0 : CatData :=
    { employee_type := "Total",
      employee_count := a.employee_count + b.employee_count + c.employee_count,
      advance_pay := a.advance_pay + b.advance_pay + c.advance_pay,
      net_salary := a.net_salary + b.net_salary + c.net_salary,
      net_minus_advance :=
        a.net_minus_advance + b.net_minus_advance + c.net_minus_advance,
      cost_to_company := a.cost_to_company + b.cost_to_company + c.cost_to_company }
  { t0 with net_minus_advance := t0.net_salary - t0.advance_pay }

/-- `MonthlyPayroll.calculate_summary`: per-category aggregation over all rows
followed by finalization, emitted in the fixed insertion order Academic,
Administrative, Support, Total. -/
def calculate_summary (rows : List PayrollRow) : List CatData :=
  let s := rows.foldl sumStep (initCat "Academic", initCat "Administrative", initCat "Support")
  let a := finalizeCat s.1
  let b := finalizeCat s.2.1
  let c := finalizeCat s.2.2
  [a, b, c, totalCat a b c]

/-- The running totals of the `calculate_totals` loop. -/
structure TotalsAcc where
  total_cost : ℚ
  advance_pay : ℚ
  net_salary : ℚ
  total_paye : ℚ
  total_rssb : ℚ
  total_maternity : ℚ
  total_cbhi : ℚ
  deriving DecidableEq, Repr

/-- One iteration of the `calculate_totals` loop over `payroll_detail`. -/
def totStep (a : TotalsAcc) (r : PayrollRow) : TotalsAcc :=
  { total_cost := a.total_cost + r.gross_pay,
    advance_pay := a.advance_pay + r.take_home,
    net_salary := a.net_salary + r.net_salary,
    total_paye := a.total_paye + r.paye,
    total_rssb := a.total_rssb + (r.rssb_employee + r.rssb_employer),
    total_maternity := a.total_maternity + (r.maternity_employee + r.maternity_employer),
    total_cbhi := a.total_cbhi + r.cbhi }

/-- The single record of the `monthly_payroll_totals` child table. -/
structure PeriodTotals where
  total_cost : ℚ
  advance_pay : ℚ
  net_salary : ℚ
  net_minus_advance : ℚ
  total_paye : ℚ
  total_rssb : ℚ
  total_maternity : ℚ
  total_cbhi : ℚ
  total_taxes : ℚ
  deriving DecidableEq, Repr

/-- `MonthlyPayroll.calculate_totals`: fold all rows unconditionally, then
derive `net_minus_advance` and `total_taxes`. -/
def calculate_totals (rows : List PayrollRow) : PeriodTotals :=
  let a := rows.foldl totStep ⟨0, 0, 0, 0, 0, 0, 0⟩
  { total_cost := a.total_cost,
    advance_pay := a.advance_pay,
    net_salary := a.net_salary,
    net_minus_advance := a.net_salary - a.advance_pay,
    total_paye := a.total_paye,
    total_rssb := a.total_rssb,
    total_maternity := a.total_maternity,
    total_cbhi := a.total_cbhi,
    total_taxes := a.total_paye + a.total_rssb + a.total_maternity + a.total_cbhi }

/-- Closed form of `take_home_2`: 99.5% of net, net being 85.1% of gross minus
the PAYE actually applied. -/
theorem take_home_2_eq (g : ℚ) (tax : Bool) :
    (_calc_all g tax).take_home_2
      = (995/1000) * ((851/1000) * g - (if tax then _paye_rwanda g else 0)) := by
  simp only [_calc_all]
  ring

theorem paye_nonneg (g : ℚ) : 0 ≤ _paye_rwanda g := by
  unfold _paye_rwanda
  split_ifs <;> norm_num <;> linarith

theorem paye_mono {g1 g2 : ℚ} (h : g1 ≤ g2) : _paye_rwanda g1 ≤ _paye_rwanda g2 := by
  unfold _paye_rwanda
  split_ifs <;> norm_num <;> linarith

theorem paye_lipschitz {g1 g2 : ℚ} (h : g1 ≤ g2) :
    _paye_rwanda g2 - _paye_rwanda g1 ≤ (3/10) * (g2 - g1) := by
  unfold _paye_rwanda
  split_ifs <;> norm_num <;> linarith

theorem paye_le_three_tenths (g : ℚ) (h : 0 ≤ g) : _paye_rwanda g ≤ (3/10) * g := by
  unfold _paye_rwanda
  split_ifs <;> norm_num <;> linarith

/-- `take_home_2` is strictly increasing in gross (for either tax setting). -/
theorem take_home_2_strict {g1 g2 : ℚ} (tax : Bool) (h : g1 < g2) :
    (_calc_all g1 tax).take_home_2 < (_calc_all g2 tax).take_home_2 := by
  rw [take_home_2_eq, take_home_2_eq]
  have key : (if tax then _paye_rwanda g2 else 0) - (if tax then _paye_rwanda g1 else 0)
      ≤ (3/10) * (g2 - g1) := by
    split_ifs
    · exact paye_lipschitz (le_of_lt h)
    · linarith
  linarith [key]

theorem take_home_2_le {g1 g2 : ℚ} (tax : Bool) (h : g1 ≤ g2) :
    (_calc_all g1 tax).take_home_2 ≤ (_calc_all g2 tax).take_home_2 := by
  rcases eq_or_lt_of_le h with rfl | hlt
  · exact le_refl _
  · exact le_of_lt (take_home_2_strict tax hlt)

/-- Quantitative lower bound: `take_home_2 ≥ 0.548245 · gross` for
non-negative gross, since PAYE never exceeds 30% of gross. -/
theorem take_home_2_lower (g : ℚ) (tax : Bool) (h : 0 ≤ g) :
    (548245/1000000) * g ≤ (_calc_all g tax).take_home_2 := by
  rw [take_home_2_eq]
  have key : (if tax then _paye_rwanda g else 0) ≤ (3/10) * g := by
    split_ifs
    · exact paye_le_three_tenths g h
    · linarith
  linarith [key]

theorem incBound_reaches (T : ℚ) (tax : Bool) :
    T ≤ (_calc_all ((incBound T : ℤ) : ℚ) tax).take_home_2 := by
  have h1 : (1 : ℤ) ≤ incBound T := le_max_left 1 _
  have h1q : (1 : ℚ) ≤ ((incBound T : ℤ) : ℚ) := by exact_mod_cast h1
  have hlow := take_home_2_lower ((incBound T : ℤ) : ℚ) tax (by linarith)
  rcases le_or_lt T 0 with hT | hT
  · have : (548245/1000000 : ℚ) * 1 ≤ (548245/1000000 : ℚ) * ((incBound T : ℤ) : ℚ) :=
      mul_le_mul_of_nonneg_left h1q (by norm_num)
    linarith
  · have h2 : (⌈T * 1000000 / 548245⌉ : ℤ) ≤ incBound T := le_max_right 1 _
    have h3 : T * 1000000 / 548245 ≤ ((incBound T : ℤ) : ℚ) :=
      le_trans (Int.le_ceil _) (by exact_mod_cast h2)
    linarith

theorem incLoopAux_le (T : ℚ) (tax : Bool) :
    ∀ (n : ℕ) (g : ℤ), g ≤ incLoopAux T tax n g := by
  intro n
  induction n with
  | zero => intro g; exact le_refl g
  | succ n ih =>
    intro g
    rw [incLoopAux_succ]
    split_ifs
    · exact le_trans (by omega) (ih (g + 1))
    · exact le_refl g

theorem incLoopAux_min (T : ℚ) (tax : Bool) :
    ∀ (n : ℕ) (g g' : ℤ), g ≤ g' → g' < incLoopAux T tax n g →
      (_calc_all (g' : ℚ) tax).take_home_2 < T := by
  intro n
  induction n with
  | zero =>
    intro g g' h1 h2
    simp only [incLoopAux] at h2
    omega
  | succ n ih =>
    intro g g' h1 h2
    rw [incLoopAux_succ] at h2
    split_ifs at h2 with hc
    · rcases eq_or_lt_of_le h1 with rfl | hlt
      · exact hc
      · exact ih (g + 1) g' (by omega) h2
    · omega

theorem incLoopAux_post (T : ℚ) (tax : Bool) :
    ∀ (n : ℕ) (g G : ℤ), g ≤ G → T ≤ (_calc_all (G : ℚ) tax).take_home_2 →
      (G - g).toNat < n → T ≤ (_calc_all ((incLoopAux T tax n g : ℤ) : ℚ) tax).take_home_2 := by
  intro n
  induction n with
  | zero => intro g G h1 h2 h3; omega
  | succ n ih =>
    intro g G h1 h2 h3
    rw [incLoopAux_succ]
    split_ifs with hc
    · rcases eq_or_lt_of_le h1 with rfl | hlt
      · exact absurd h2 (not_le.mpr hc)
      · exact ih (g + 1) G (by omega) h2 (by omega)
    · exact not_lt.mp hc

theorem incLoop_post (T : ℚ) (tax : Bool) (g : ℤ) :
    T ≤ (_calc_all ((incLoop T tax g : ℤ) : ℚ) tax).take_home_2 := by
  have hmax : T ≤ (_calc_all ((max g (incBound T) : ℤ) : ℚ) tax).take_home_2 := by
    refine le_trans (incBound_reaches T tax) (take_home_2_le tax ?_)
    exact_mod_cast le_max_right g (incBound T)
  exact incLoopAux_post T tax _ g (max g (incBound T)) (le_max_left _ _) hmax (by omega)

theorem incLoop_le (T : ℚ) (tax : Bool) (g : ℤ) : g ≤ incLoop T tax g :=
  incLoopAux_le T tax _ g

theorem incLoop_min (T : ℚ) (tax : Bool) (g g' : ℤ) (h1 : g ≤ g')
    (h2 : g' < incLoop T tax g) : (_calc_all (g' : ℚ) tax).take_home_2 < T :=
  incLoopAux_min T tax _ g g' h1 h2

theorem incLoopF_some (T : ℚ) (tax : Bool) :
    ∀ (n : ℕ) (g G : ℤ), g ≤ G → T ≤ (_calc_all (G : ℚ) tax).take_home_2 →
      (G - g).toNat < n → incLoopF T tax n g = some (incLoopAux T tax n g) := by
  intro n
  induction n with
  | zero => intro g G h1 h2 h3; omega
  | succ n ih =>
    intro g G h1 h2 h3
    rw [incLoopAux_succ]
    show (if (_calc_all (g : ℚ) tax).take_home_2 < T then incLoopF T tax n (g + 1)
      else some g) = _
    split_ifs with hc
    · rcases eq_or_lt_of_le h1 with rfl | hlt
      · exact absurd h2 (not_le.mpr hc)
      · exact ih (g + 1) G (by omega) h2 (by omega)
    · rfl

theorem sumStep_skip (s : CatData × CatData × CatData) (r : PayrollRow)
    (h1 : r.employee_type ≠ "Academic") (h2 : r.employee_type ≠ "Administrative")
    (h3 : r.employee_type ≠ "Support") : sumStep s r = s := by
  simp [sumStep, h1, h2, h3]

theorem foldl_sumStep_types (rows : List PayrollRow) :
    ∀ s : CatData × CatData × CatData,
      ((rows.foldl sumStep s).1.employee_type = s.1.employee_type
      ∧ (rows.foldl sumStep s).2.1.employee_type = s.2.1.employee_type
      ∧ (rows.foldl sumStep s).2.2.employee_type = s.2.2.employee_type) := by
  induction rows with
  | nil => intro s; exact ⟨rfl, rfl, rfl⟩
  | cons r rows ih =>
    intro s
    have hstep : ((sumStep s r).1.employee_type = s.1.employee_type
        ∧ (sumStep s r).2.1.employee_type = s.2.1.employee_type
        ∧ (sumStep s r).2.2.employee_type = s.2.2.employee_type) := by
      simp only [sumStep]
      split_ifs <;> exact ⟨rfl, rfl, rfl⟩
    rw [List.foldl_cons]
    exact ⟨((ih (sumStep s r)).1).trans hstep.1,
      ((ih (sumStep s r)).2.1).trans hstep.2.1,
      ((ih (sumStep s r)).2.2).trans hstep.2.2⟩

theorem foldl_sumStep_fst_frozen (rows : List PayrollRow) :
    ∀ s : CatData × CatData × CatData,
      (∀ r ∈ rows, r.employee_type ≠ "Academic") →
      (rows.foldl sumStep s).1 = s.1 := by
  induction rows with
  | nil => intro s _; rfl
  | cons r rows ih =>
    intro s h
    have hstep : (sumStep s r).1 = s.1 := by
      simp only [sumStep]
      split_ifs with ha hb hc
      · exact absurd ha (h r (by simp))
      · rfl
      · rfl
      · rfl
    rw [List.foldl_cons, ih (sumStep s r) (fun x hx => h x (by simp [hx])), hstep]

theorem foldl_sumStep_snd_frozen (rows : List PayrollRow) :
    ∀ s : CatData × CatData × CatData,
      (∀ r ∈ rows, r.employee_type ≠ "Administrative") →
      (rows.foldl sumStep s).2.1 = s.2.1 := by
  induction rows with
  | nil => intro s _; rfl
  | cons r rows ih =>
    intro s h
    have hstep : (sumStep s r).2.1 = s.2.1 := by
      simp only [sumStep]
      split_ifs with ha hb hc
      · rfl
      · exact absurd hb (h r (by simp))
      · rfl
      · rfl
    rw [List.foldl_cons, ih (sumStep s r) (fun x hx => h x (by simp [hx])), hstep]

theorem foldl_sumStep_trd_frozen (rows : List PayrollRow) :
    ∀ s : CatData × CatData × CatData,
      (∀ r ∈ rows, r.employee_type ≠ "Support") →
      (rows.foldl sumStep s).2.2 = s.2.2 := by
  induction rows with
  | nil => intro s _; rfl
  | cons r rows ih =>
    intro s h
    have hstep : (sumStep s r).2.2 = s.2.2 := by
      simp only [sumStep]
      split_ifs with ha hb hc
      · rfl
      · rfl
      · exact absurd hc (h r (by simp))
      · rfl
    rw [List.foldl_cons, ih (sumStep s r) (fun x hx => h x (by simp [hx])), hstep]

theorem totStep_comm (a : TotalsAcc) (r x : PayrollRow) :
    totStep (totStep a r) x = totStep (totStep a x) r := by
  simp only [totStep, TotalsAcc.mk.injEq]
  refine ⟨?_, ?_, ?_, ?_, ?_, ?_, ?_⟩ <;> ring

theorem foldl_totStep_shift (l : List PayrollRow) :
    ∀ (a : TotalsAcc) (r : PayrollRow),
      l.foldl totStep (totStep a r) = totStep (l.foldl totStep a) r := by
  induction l with
  | nil => intro a r; rfl
  | cons x xs ih =>
    intro a r
    rw [List.foldl_cons, totStep_comm a r x, ih (totStep a x) r, List.foldl_cons]

theorem finalizeCat_type (d : CatData) : (finalizeCat d).employee_type = d.employee_type := rfl

theorem totalCat_type (a b c : CatData) : (totalCat a b c).employee_type = "Total" := rfl

theorem finalizeCat_init (t : String) : finalizeCat (initCat t) = initCat t := by
  simp [finalizeCat, initCat]

/-- C8: a row whose `employee_type` is outside the three fixed categories is
dropped by `calculate_summary` (the summary of the list with the row equals
the summary without it), while `calculate_totals` still adds every one of its
monetary fields, since the totals fold runs over all rows unconditionally. -/
theorem unrecognized_type_row_aggregation (l1 l2 : List PayrollRow) (r : PayrollRow)
    (h1 : r.employee_type ≠ "Academic") (h2 : r.employee_type ≠ "Administrative")
    (h3 : r.employee_type ≠ "Support") :
    calculate_summary (l1 ++ r :: l2) = calculate_summary (l1 ++ l2)
    ∧ calculate_totals (l1 ++ r :: l2) =
      { total_cost := (calculate_totals (l1 ++ l2)).total_cost + r.gross_pay,
        advance_pay := (calculate_totals (l1 ++ l2)).advance_pay + r.take_home,
        net_salary := (calculate_totals (l1 ++ l2)).net_salary + r.net_salary,
        net_minus_advance := (calculate_totals (l1 ++ l2)).net_minus_advance
          + (r.net_salary - r.take_home),
        total_paye := (calculate_totals (l1 ++ l2)).total_paye + r.paye,
        total_rssb := (calculate_totals (l1 ++ l2)).total_rssb
          + (r.rssb_employee + r.rssb_employer),
        total_maternity := (calculate_totals (l1 ++ l2)).total_maternity
          + (r.maternity_employee + r.maternity_employer),
        total_cbhi := (calculate_totals (l1 ++ l2)).total_cbhi + r.cbhi,
        total_taxes := (calculate_totals (l1 ++ l2)).total_taxes
          + (r.paye + (r.rssb_employee + r.rssb_employer)
            + (r.maternity_employee + r.maternity_employer) + r.cbhi) } := by
  constructor
  · simp only [calculate_summary]
    rw [List.foldl_append, List.foldl_cons, sumStep_skip _ r h1 h2 h3, ← List.foldl_append]
  · simp only [calculate_totals]
    rw [List.foldl_append, List.foldl_cons, foldl_totStep_shift, ← List.foldl_append]
    simp only [totStep, PeriodTotals.mk.injEq]
    refine ⟨?_, ?_, ?_, ?_, ?_, ?_, ?_, ?_, ?_⟩ <;> ring

theorem unrecognized_type_row_aggregation_witness :
    calculate_summary ([] ++ (⟨"E9", "Teacher", 10, true, 20, 1, 2, 3, 4, 5, 6, 7, 8⟩ : PayrollRow) :: []) = calculate_summary ([] ++ [])
    ∧ calculate_totals ([] ++ (⟨"E9", "Teacher", 10, true, 20, 1, 2, 3, 4, 5, 6, 7, 8⟩ : PayrollRow) :: []) =
      { total_cost := (calculate_totals ([] ++ [])).total_cost + 20,
        advance_pay := (calculate_totals ([] ++ [])).advance_pay + 10,
        net_salary := (calculate_totals ([] ++ [])).net_salary + 6,
        net_minus_advance := (calculate_totals ([] ++ [])).net_minus_advance + (6 - 10),
        total_paye := (calculate_totals ([] ++ [])).total_paye + 1,
        total_rssb := (calculate_totals ([] ++ [])).total_rssb + (3 + 2),
        total_maternity := (calculate_totals ([] ++ [])).total_maternity + (5 + 4),
        total_cbhi := (calculate_totals ([] ++ [])).total_cbhi + 7,
        total_taxes := (calculate_totals ([] ++ [])).total_taxes
          + (1 + (3 + 2) + (5 + 4) + 7) } :=
  unrecognized_type_row_aggregation [] []
    ⟨"E9", "Teacher", 10, true, 20, 1, 2, 3, 4, 5, 6, 7, 8⟩
    (by decide) (by decide) (by decide)

/-- C9: `calculate_summary` always emits exactly four records in the fixed
order Academic, Administrative, Support, Total, and a category with no
matching row keeps its zero-initialised record. -/
theorem calculate_summary_shape (rows : List PayrollRow) :
    (calculate_summary rows).map CatData.employee_type
        = ["Academic", "Administrative", "Support", "Total"]
    ∧ ((∀ r ∈ rows, r.employee_type ≠ "Academic") →
        (calculate_summary rows)[0]? = some (initCat "Academic"))
    ∧ ((∀ r ∈ rows, r.employee_type ≠ "Administrative") →
        (calculate_summary rows)[1]? = some (initCat "Administrative"))
    ∧ ((∀ r ∈ rows, r.employee_type ≠ "Support") →
        (calculate_summary rows)[2]? = some (initCat "Support")) := by
  have htypes := foldl_sumStep_types rows
    (initCat "Academic", initCat "Administrative", initCat "Support")
  refine ⟨?_, ?_, ?_, ?_⟩
  · simp only [calculate_summary, List.map, finalizeCat_type, totalCat_type]
    rw [htypes.1, htypes.2.1, htypes.2.2]
    rfl
  · intro h
    simp only [calculate_summary]
    rw [foldl_sumStep_fst_frozen rows _ h, finalizeCat_init]
    rfl
  · intro h
    simp only [calculate_summary]
    rw [foldl_sumStep_snd_frozen rows _ h, finalizeCat_init]
    rfl
  · intro h
    simp only [calculate_summary]
    rw [foldl_sumStep_trd_frozen rows _ h, finalizeCat_init]
    rfl

theorem calculate_summary_shape_witness :
    (calculate_summary []).map CatData.employee_type
        = ["Academic", "Administrative", "Support", "Total"]
    ∧ (calculate_summary [])[0]? = some (initCat "Academic") :=
  ⟨(calculate_summary_shape []).1, (calculate_summary_shape []).2.1 (by simp)⟩

/-- C3: for a fixed tax flag, `take_home_2` as a function of gross is
non-decreasing everywhere and strictly increasing on positive gross. -/
theorem take_home_2_monotone (tax : Bool) :
    (∀ g1 g2 : ℚ, g1 ≤ g2 →
      (_calc_all g1 tax).take_home_2 ≤ (_calc_all g2 tax).take_home_2)
    ∧ (∀ g1 g2 : ℚ, 0 < g1 → g1 < g2 →
      (_calc_all g1 tax).take_home_2 < (_calc_all g2 tax).take_home_2) :=
  ⟨fun _ _ h => take_home_2_le tax h, fun _ _ _ h => take_home_2_strict tax h⟩

theorem take_home_2_monotone_witness :
    (_calc_all 100 true).take_home_2 ≤ (_calc_all 200 true).take_home_2
    ∧ (_calc_all 100 true).take_home_2 < (_calc_all 200 true).take_home_2 :=
  ⟨(take_home_2_monotone true).1 100 200 (by norm_num),
   (take_home_2_monotone true).2 100 200 (by norm_num) (by norm_num)⟩

/-- C4: the record produced by `_calc_all` satisfies the stated accounting
identities, the fixed contribution proportions of gross, and the PAYE
selection by the tax flag. -/
theorem calc_all_invariants (g : ℚ) (tax : Bool) :
    (_calc_all g tax).net_salary
        = (_calc_all g tax).gross_pay
          - ((_calc_all g tax).paye + (_calc_all g tax).rssb_employer
            + (_calc_all g tax).rssb_employee + (_calc_all g tax).maternity_employer
            + (_calc_all g tax).maternity_employee)
    ∧ (_calc_all g tax).cbhi = 0.005 * (_calc_all g tax).net_salary
    ∧ (_calc_all g tax).take_home_2 = (_calc_all g tax).net_salary - (_calc_all g tax).cbhi
    ∧ (_calc_all g tax).rssb_employer = 0.08 * g
    ∧ (_calc_all g tax).rssb_employee = 0.06 * g
    ∧ (_calc_all g tax).maternity_employer = 0.006 * g
    ∧ (_calc_all g tax).maternity_employee = 0.003 * g
    ∧ (_calc_all g tax).paye = (if tax then _paye_rwanda g else 0) := by
  refine ⟨?_, ?_, ?_, ?_, ?_, ?_, ?_, ?_⟩ <;> simp [_calc_all]

/-- C10: a negative gross is not clamped: `_calc_all` applies the same
proportional formulas, yielding zero PAYE but strictly negative
contributions, net salary, and CBHI, with `gross_pay` the input itself. -/
theorem calc_all_negative_gross (g : ℚ) (hg : g < 0) (tax : Bool) :
    (_calc_all g tax).paye = 0
    ∧ (_calc_all g tax).rssb_employer = 0.08 * g ∧ (_calc_all g tax).rssb_employer < 0
    ∧ (_calc_all g tax).rssb_employee = 0.06 * g ∧ (_calc_all g tax).rssb_employee < 0
    ∧ (_calc_all g tax).maternity_employer = 0.006 * g
    ∧ (_calc_all g tax).maternity_employer < 0
    ∧ (_calc_all g tax).maternity_employee = 0.003 * g
    ∧ (_calc_all g tax).maternity_employee < 0
    ∧ (_calc_all g tax).net_salary < 0
    ∧ (_calc_all g tax).cbhi < 0
    ∧ (_calc_all g tax).gross_pay = g := by
  have hp : _paye_rwanda g = 0 := by
    unfold _paye_rwanda
    rw [if_pos (by linarith : g ≤ 60000)]
  have hpp : (if tax then _paye_rwanda g else 0) = 0 := by
    split_ifs <;> simp [hp]
  refine ⟨?_, ?_, ?_, ?_, ?_, ?_, ?_, ?_, ?_, ?_, ?_, ?_⟩ <;>
    simp [_calc_all, hpp] <;> linarith

theorem calc_all_negative_gross_witness :
    (-1000 : ℚ) < 0 ∧ (_calc_all (-1000) true).paye = 0
    ∧ (_calc_all (-1000) true).rssb_employer = 0.08 * (-1000)
    ∧ (_calc_all (-1000) true).rssb_employer < 0
    ∧ (_calc_all (-1000) true).rssb_employee = 0.06 * (-1000)
    ∧ (_calc_all (-1000) true).rssb_employee < 0
    ∧ (_calc_all (-1000) true).maternity_employer = 0.006 * (-1000)
    ∧ (_calc_all (-1000) true).maternity_employer < 0
    ∧ (_calc_all (-1000) true).maternity_employee = 0.003 * (-1000)
    ∧ (_calc_all (-1000) true).maternity_employee < 0
    ∧ (_calc_all (-1000) true).net_salary < 0
    ∧ (_calc_all (-1000) true).cbhi < 0
    ∧ (_calc_all (-1000) true).gross_pay = -1000 :=
  ⟨by norm_num, calc_all_negative_gross (-1000) (by norm_num) true⟩

/-- C6: for a positive target and `apply_tax` off, `calculate_row` sets
gross, net and take-home-2 all to the target and every deduction field to
zero. -/
theorem calculate_row_tax_exempt (r : PayrollRow) (h1 : 0 < r.take_home)
    (h2 : r.apply_tax = false) :
    (calculate_row r).gross_pay = r.take_home
    ∧ (calculate_row r).net_salary = r.take_home
    ∧ (calculate_row r).take_home_2 = r.take_home
    ∧ (calculate_row r).paye = 0
    ∧ (calculate_row r).rssb_employer = 0
    ∧ (calculate_row r).rssb_employee = 0
    ∧ (calculate_row r).maternity_employer = 0
    ∧ (calculate_row r).maternity_employee = 0
    ∧ (calculate_row r).cbhi = 0 := by
  simp only [calculate_row]
  rw [if_neg (not_le.mpr h1), if_pos h2]
  exact ⟨rfl, rfl, rfl, rfl, rfl, rfl, rfl, rfl, rfl⟩

theorem calculate_row_tax_exempt_witness :
    (calculate_row ⟨"E1", "Academic", 80000, false, 0, 0, 0, 0, 0, 0, 0, 0, 0⟩).gross_pay
        = 80000
    ∧ (calculate_row ⟨"E1", "Academic", 80000, false, 0, 0, 0, 0, 0, 0, 0, 0, 0⟩).net_salary
        = 80000
    ∧ (calculate_row ⟨"E1", "Academic", 80000, false, 0, 0, 0, 0, 0, 0, 0, 0, 0⟩).take_home_2
        = 80000
    ∧ (calculate_row ⟨"E1", "Academic", 80000, false, 0, 0, 0, 0, 0, 0, 0, 0, 0⟩).paye = 0
    ∧ (calculate_row ⟨"E1", "Academic", 80000, false, 0, 0, 0, 0, 0, 0, 0, 0, 0⟩).rssb_employer
        = 0
    ∧ (calculate_row ⟨"E1", "Academic", 80000, false, 0, 0, 0, 0, 0, 0, 0, 0, 0⟩).rssb_employee
        = 0
    ∧ (calculate_row
        ⟨"E1", "Academic", 80000, false, 0, 0, 0, 0, 0, 0, 0, 0, 0⟩).maternity_employer = 0
    ∧ (calculate_row
        ⟨"E1", "Academic", 80000, false, 0, 0, 0, 0, 0, 0, 0, 0, 0⟩).maternity_employee = 0
    ∧ (calculate_row ⟨"E1", "Academic", 80000, false, 0, 0, 0, 0, 0, 0, 0, 0, 0⟩).cbhi = 0 :=
  calculate_row_tax_exempt ⟨"E1", "Academic", 80000, false, 0, 0, 0, 0, 0, 0, 0, 0, 0⟩
    (by norm_num) rfl

theorem pyRound_zero : pyRound 0 = 0 := by
  norm_num [pyRound]

theorem calc_all_zero (tax : Bool) :
    _calc_all 0 tax =
      { paye := 0, rssb_employer := 0, rssb_employee := 0, maternity_employer := 0,
        maternity_employee := 0, net_salary := 0, cbhi := 0, take_home_2 := 0,
        gross_pay := 0 } := by
  cases tax <;> norm_num [_calc_all, _paye_rwanda, DeductionResult.mk.injEq]

theorem round_zero_result (tax : Bool) :
    ({ round_fields (_calc_all 0 tax) with gross_pay := 0 } : DeductionResult) =
      { paye := 0, rssb_employer := 0, rssb_employee := 0, maternity_employer := 0,
        maternity_employee := 0, net_salary := 0, cbhi := 0, take_home_2 := 0,
        gross_pay := 0 } := by
  rw [calc_all_zero]
  simp [round_fields, pyRound_zero]

/-- C7: a non-positive target short-circuits the solver: the returned record
is identically zero (integer zero gross included), and this coincides with
`_calc_all 0` after rounding. -/
theorem solver_zero_target (T : ℚ) (hT : T ≤ 0) (tax : Bool) (tol : ℚ) (iter : ℕ) :
    rwanda_gross_for_take_home T tax tol iter =
      { paye := 0, rssb_employer := 0, rssb_employee := 0, maternity_employer := 0,
        maternity_employee := 0, net_salary := 0, cbhi := 0, take_home_2 := 0,
        gross_pay := 0 }
    ∧ ({ round_fields (_calc_all 0 tax) with gross_pay := 0 } : DeductionResult) =
      { paye := 0, rssb_employer := 0, rssb_employee := 0, maternity_employer := 0,
        maternity_employee := 0, net_salary := 0, cbhi := 0, take_home_2 := 0,
        gross_pay := 0 } := by
  constructor
  · simp only [rwanda_gross_for_take_home]
    rw [if_pos hT]
    exact round_zero_result tax
  · exact round_zero_result tax

theorem solver_zero_target_witness :
    rwanda_gross_for_take_home 0 true 1 60 =
      { paye := 0, rssb_employer := 0, rssb_employee := 0, maternity_employer := 0,
        maternity_employee := 0, net_salary := 0, cbhi := 0, take_home_2 := 0,
        gross_pay := 0 }
    ∧ ({ round_fields (_calc_all 0 true) with gross_pay := 0 } : DeductionResult) =
      { paye := 0, rssb_employer := 0, rssb_employee := 0, maternity_employer := 0,
        maternity_employee := 0, net_salary := 0, cbhi := 0, take_home_2 := 0,
        gross_pay := 0 } :=
  solver_zero_target 0 (by norm_num) true 1 60

theorem solver_meets_aux (T : ℚ) (hT : 0 < T) (tax : Bool) (tol : ℚ) (iter : ℕ) :
    T ≤ (_calc_all ((rwanda_gross_for_take_home T tax tol iter).gross_pay) tax).take_home_2 := by
  simp only [rwanda_gross_for_take_home]
  rw [if_neg (not_le.mpr hT)]
  exact incLoop_post T tax _

/-- C2: for every positive target, any tolerance, and any iteration budget
(`max_iter = 0` included), the gross returned by the solver satisfies
`take_home_2 ≥ target`: the ceil-and-increment step alone enforces the
postcondition. -/
theorem solver_gross_meets_target (T : ℚ) (hT : 0 < T) (tax : Bool) (tol : ℚ) (iter : ℕ) :
    T ≤ (_calc_all ((rwanda_gross_for_take_home T tax tol iter).gross_pay) tax).take_home_2 :=
  solver_meets_aux T hT tax tol iter

theorem solver_gross_meets_target_witness :
    (0 : ℚ) < 1000
    ∧ (1000 : ℚ) ≤
      (_calc_all ((rwanda_gross_for_take_home 1000 true 37 0).gross_pay) true).take_home_2 :=
  ⟨by norm_num, solver_gross_meets_target 1000 (by norm_num) true 37 0⟩

theorem incLoopF_incLoop (T : ℚ) (tax : Bool) (g : ℤ) :
    incLoopF T tax ((incBound T - g).toNat + 1) g = some (incLoop T tax g) := by
  have hmax : T ≤ (_calc_all ((max g (incBound T) : ℤ) : ℚ) tax).take_home_2 := by
    refine le_trans (incBound_reaches T tax) (take_home_2_le tax ?_)
    exact_mod_cast le_max_right g (incBound T)
  exact incLoopF_some T tax _ g (max g (incBound T)) (le_max_left _ _) hmax (by omega)

/-- C5: the solver terminates for every input: the doubling and bisection
phases are bounded by construction (fuel 30 and `max_iter`), and the
unbounded increment loop finishes within an explicit fuel, so the fuelled
solver reaches `some` of the result of the total solver. -/
theorem solver_terminates (T : ℚ) (tax : Bool) (tol : ℚ) (iter : ℕ) :
    ∃ n : ℕ, rwanda_gross_for_take_home_fuelled n T tax tol iter
      = some (rwanda_gross_for_take_home T tax tol iter) := by
  rcases le_or_lt T 0 with hT | hT
  · refine ⟨0, ?_⟩
    simp only [rwanda_gross_for_take_home_fuelled, rwanda_gross_for_take_home]
    rw [if_pos hT, if_pos hT]
  · refine ⟨(incBound T
      - ⌈bisect T tax tol iter 0 (doubling T tax 30 (max (T / 0.55) 200000))⌉).toNat + 1, ?_⟩
    simp only [rwanda_gross_for_take_home_fuelled, rwanda_gross_for_take_home]
    rw [if_neg (not_le.mpr hT), if_neg (not_le.mpr hT), incLoopF_incLoop]
    rfl

/-- C1 counterexample: at target `T = 80693.6` (tolerance 1, `max_iter` 60)
the solver returns gross 100000, yet the smaller whole-unit gross 99999
already satisfies `take_home_2 ≥ T`; in particular
`take_home_2(g - 1) < T` fails for the returned `g`. -/
theorem solver_not_minimal_cex :
    (rwanda_gross_for_take_home (806936/10) true 1 60).gross_pay = 100000
    ∧ (806936/10 : ℚ) ≤ (_calc_all (100000 - 1) true).take_home_2 := by
  constructor
  · have hth200k : (_calc_all (200000 : ℚ) true).take_home_2 = 145469 := by
      norm_num [_calc_all, _paye_rwanda]
    have hth100k : (_calc_all (100000 : ℚ) true).take_home_2 = 161389/2 := by
      norm_num [_calc_all, _paye_rwanda]
    have hmax : max ((806936/10 : ℚ) / 0.55) 200000 = 200000 :=
      max_eq_right (by norm_num)
    have hd : doubling (806936/10 : ℚ) true 30 200000 = 200000 := by
      rw [show (30 : ℕ) = 29 + 1 from rfl, doubling_succ, hth200k, if_pos (by norm_num)]
    have hb : bisect (806936/10 : ℚ) true 1 60 0 200000 = 100000 := by
      rw [show (60 : ℕ) = 59 + 1 from rfl, bisect_succ,
        show ((0 : ℚ) + 200000) / 2 = 100000 from by norm_num, hth100k,
        if_pos (show |(161389/2 : ℚ) - 806936/10| ≤ 1 from by
          rw [abs_le]; constructor <;> norm_num)]
    have hceil : ⌈(100000 : ℚ)⌉ = (100000 : ℤ) := by
      rw [Int.ceil_eq_iff]; norm_num
    have hcb : ⌈(806936/10 : ℚ) * 1000000 / 548245⌉ = (147186 : ℤ) := by
      rw [Int.ceil_eq_iff]; norm_num
    have hbound : incBound (806936/10 : ℚ) = 147186 := by
      rw [incBound, hcb]; exact max_eq_right (by norm_num)
    have hfuel : ((147186 : ℤ) - 100000).toNat + 1 = 47186 + 1 := by decide
    have hinc : incLoop (806936/10 : ℚ) true 100000 = 100000 := by
      rw [incLoop, hbound, hfuel, incLoopAux_succ,
        show ((100000 : ℤ) : ℚ) = (100000 : ℚ) from by norm_num, hth100k,
        if_neg (by norm_num)]
    simp only [rwanda_gross_for_take_home]
    rw [if_neg (by norm_num), hmax, hd, hb, hceil, hinc]
    norm_num
  · norm_num [_calc_all, _paye_rwanda]

/-- C1 amended: for tolerance 1 and `max_iter` 60, the solver returns the
smallest whole-unit gross at or above the ceiling of the search phase
output whose `take_home_2` meets the target; the globally smallest
satisfying gross can be strictly below it. -/
theorem solver_minimal_from_ceiling (T : ℚ) (hT : 0 < T) (tax : Bool) (g2 : ℤ)
    (h1 : ⌈bisect T tax 1 60 0 (doubling T tax 30 (max (T / 0.55) 200000))⌉ ≤ g2)
    (h2 : (g2 : ℚ) < (rwanda_gross_for_take_home T tax 1 60).gross_pay) :
    T ≤ (_calc_all ((rwanda_gross_for_take_home T tax 1 60).gross_pay) tax).take_home_2
    ∧ (_calc_all (g2 : ℚ) tax).take_home_2 < T := by
  have hg : (rwanda_gross_for_take_home T tax 1 60).gross_pay
      = ((incLoop T tax
          ⌈bisect T tax 1 60 0 (doubling T tax 30 (max (T / 0.55) 200000))⌉ : ℤ) : ℚ) := by
    simp only [rwanda_gross_for_take_home]
    rw [if_neg (not_le.mpr hT)]
  refine ⟨solver_meets_aux T hT tax 1 60, ?_⟩
  rw [hg] at h2
  exact incLoop_min T tax _ g2 h1 (by exact_mod_cast h2)

theorem solver_minimal_from_ceiling_witness :
    0 < (80695 : ℚ)
    ∧ ⌈bisect 80695 true 1 60 0 (doubling 80695 true 30 (max ((80695 : ℚ) / 0.55) 200000))⌉
        ≤ (100000 : ℤ)
    ∧ ((100000 : ℤ) : ℚ) < (rwanda_gross_for_take_home 80695 true 1 60).gross_pay
    ∧ ((80695 : ℚ)
        ≤ (_calc_all ((rwanda_gross_for_take_home 80695 true 1 60).gross_pay) true).take_home_2
      ∧ (_calc_all ((100000 : ℤ) : ℚ) true).take_home_2 < 80695) := by
  have hth200k : (_calc_all (200000 : ℚ) true).take_home_2 = 145469 := by
    norm_num [_calc_all, _paye_rwanda]
  have hth100k : (_calc_all (100000 : ℚ) true).take_home_2 = 161389/2 := by
    norm_num [_calc_all, _paye_rwanda]
  have hth100001 : (_calc_all (100001 : ℚ) true).take_home_2 = 16139029549/200000 := by
    norm_num [_calc_all, _paye_rwanda]
  have hmax : max ((80695 : ℚ) / 0.55) 200000 = 200000 := max_eq_right (by norm_num)
  have hd : doubling (80695 : ℚ) true 30 200000 = 200000 := by
    rw [show (30 : ℕ) = 29 + 1 from rfl, doubling_succ, hth200k, if_pos (by norm_num)]
  have hb : bisect (80695 : ℚ) true 1 60 0 200000 = 100000 := by
    rw [show (60 : ℕ) = 59 + 1 from rfl, bisect_succ,
      show ((0 : ℚ) + 200000) / 2 = 100000 from by norm_num, hth100k,
      if_pos (show |(161389/2 : ℚ) - 80695| ≤ 1 from by
        rw [abs_le]; constructor <;> norm_num)]
  have hceil : ⌈(100000 : ℚ)⌉ = (100000 : ℤ) := by
    rw [Int.ceil_eq_iff]; norm_num
  have hcb : ⌈(80695 : ℚ) * 1000000 / 548245⌉ = (147188 : ℤ) := by
    rw [Int.ceil_eq_iff]; norm_num
  have hbound : incBound (80695 : ℚ) = 147188 := by
    rw [incBound, hcb]; exact max_eq_right (by norm_num)
  have hfuel : ((147188 : ℤ) - 100000).toNat + 1 = 47188 + 1 := by decide
  have hinc : incLoop (80695 : ℚ) true 100000 = 100001 := by
    rw [incLoop, hbound, hfuel, incLoopAux_succ,
      show ((100000 : ℤ) : ℚ) = (100000 : ℚ) from by norm_num, hth100k,
      if_pos (by norm_num),
      show (47188 : ℕ) = 47187 + 1 from rfl,
      show (100000 : ℤ) + 1 = 100001 from by norm_num,
      incLoopAux_succ,
      show ((100001 : ℤ) : ℚ) = (100001 : ℚ) from by norm_num, hth100001,
      if_neg (by norm_num)]
  have hg : (rwanda_gross_for_take_home 80695 true 1 60).gross_pay = ((100001 : ℤ) : ℚ) := by
    simp only [rwanda_gross_for_take_home]
    rw [if_neg (by norm_num), hmax, hd, hb, hceil, hinc]
  have p1 : ⌈bisect 80695 true 1 60 0
      (doubling 80695 true 30 (max ((80695 : ℚ) / 0.55) 200000))⌉ ≤ (100000 : ℤ) := by
    rw [hmax, hd, hb, hceil]
  have p2 : ((100000 : ℤ) : ℚ) < (rwanda_gross_for_take_home 80695 true 1 60).gross_pay := by
    rw [hg]
    exact_mod_cast (by norm_num : (100000 : ℤ) < 100001)
  exact ⟨by norm_num, p1, p2,
    solver_minimal_from_ceiling 80695 (by norm_num) true 100000 p1 p2⟩
